import Mathlib

set_option autoImplicit false

/-!
Verification development for the chromio crawler (`main.py`).

The Python source is shallowly embedded.  External collaborators (the remote
browser protocol, the language-model planner service, the SQLite store) are
modelled as oracles bundled in an `Env` record: each oracle maps a request to
either a success value or a raised error (`Except Err`).  Every instrumented
operation additionally returns the list of external events it performed
(`List Ev`), so that claims about which operations were invoked can be stated.

Pure control flow, state updates and payload construction are translated
directly from the source, function by function.
-/

namespace Chromio

/-- JSON-like values, modelling Python dict/list/str/int/None payloads
as they flow through the tool-dispatch loop. -/
inductive JVal where
  | null : JVal
  | str (s : String) : JVal
  | num (n : Int) : JVal
  | obj (fields : List (String × JVal)) : JVal
  | arr (elems : List JVal) : JVal

mutual

/-- Model of Python `json.dumps` with default separators. -/
def dumps : JVal → String
  | .null => "null"
  | .str s => "\"" ++ s ++ "\""
  | .num n => toString n
  | .obj fields => "\x7b" ++ dumpsFields fields ++ "\x7d"
  | .arr elems => "[" ++ dumpsElems elems ++ "]"

/-- Serialize the field list of a JSON object. -/
def dumpsFields : List (String × JVal) → String
  | [] => ""
  | [(k, v)] => "\"" ++ k ++ "\": " ++ dumps v
  | (k, v) :: rest => "\"" ++ k ++ "\": " ++ dumps v ++ ", " ++ dumpsFields rest

/-- Serialize the element list of a JSON array. -/
def dumpsElems : List JVal → String
  | [] => ""
  | [v] => dumps v
  | v :: rest => dumps v ++ ", " ++ dumpsElems rest

end

/-- Python `json.dumps` applied to an optional value (`None` prints as
`null`); used for the `content` of a tool outcome turn. -/
def dumpsOpt : Option JVal → String
  | none => "null"
  | some v => dumps v

/-- Read a field of a JSON object (`d["k"]` on a dict known to contain `k`;
defaults to `null` which never occurs in the modelled paths). -/
def getField (v : JVal) (k : String) : JVal :=
  match v with
  | .obj fields =>
    match fields.find? (fun kv => kv.1 == k) with
    | some kv => kv.2
    | none => .null
  | _ => .null

/-- Python `d["k"] = x` on a dict not yet containing `k`: the new key is
appended at the end (insertion order). -/
def setField (v : JVal) (k : String) (x : JVal) : JVal :=
  match v with
  | .obj fields => .obj (fields ++ [(k, x)])
  | w => w

/-- The error taxonomy of the spec: raised Python exceptions are classified
by which collaborator raised them. -/
inductive Err where
  | navigationError (m : String) : Err
  | protocolError (m : String) : Err
  | plannerError (m : String) : Err
  | decodeError (m : String) : Err

/-- The message carried by an error (`str(e)`). -/
def Err.msg : Err → String
  | .navigationError m => m
  | .protocolError m => m
  | .plannerError m => m
  | .decodeError m => m

/-- The primitive operations of the Browser Action Facade, as requests to the
remote browser session.  Arguments are `JVal` because the Python code passes
decoded JSON values straight through. -/
inductive BrowserOp where
  | navigate (url : JVal) : BrowserOp
  | readContent : BrowserOp
  | readTitle : BrowserOp
  | click (selector : JVal) : BrowserOp
  | scroll (amount : JVal) : BrowserOp
  | goBack : BrowserOp
  | goForward : BrowserOp
  | extractLinks : BrowserOp

/-- External events: one browser-protocol request, or one Content Mapper
(planner) request made by `map_hn_content`. -/
inductive Ev where
  | browser (op : BrowserOp) : Ev
  | mapper (pageContent : JVal) : Ev

/-- Abstraction of the raw `arguments` string of a tool call, classified by
what `json.loads` does to it: falsy/empty (yields `{}`), malformed (raises),
or a successfully parsed JSON object. -/
inductive ArgStr where
  | empty : ArgStr
  | malformed (s : String) : ArgStr
  | parsed (fields : List (String × JVal)) : ArgStr

/-- A proposed tool call from the planner response (`tc.id`,
`tc.function.name`, `tc.function.arguments`). -/
structure ToolCall where
  id : String
  name : String
  arguments : ArgStr

/-- Model of `args = json.loads(arg_str) if arg_str else ...` — decoding the raw
argument string; raises on malformed input. -/
def decodeArgs : ArgStr → Except Err (List (String × JVal))
  | .empty => .ok []
  | .malformed s => .error (.decodeError s)
  | .parsed fields => .ok fields

/-- Model of `args["k"]` — raises `KeyError` when the key is absent. -/
def getKey (args : List (String × JVal)) (k : String) : Except Err JVal :=
  match args.find? (fun kv => kv.1 == k) with
  | some kv => .ok kv.2
  | none => .error (.decodeError k)

/-- One turn of `message_history` (ConversationState): operator instruction,
planner response (free text plus proposed calls), or a tool outcome turn. -/
inductive Msg where
  | user (content : String) : Msg
  | assistant (content : Option String) (toolCalls : List ToolCall) : Msg
  | tool (name : String) (content : String) (toolCallId : String) : Msg

/-- True exactly on tool outcome turns. -/
def Msg.isToolTurn : Msg → Bool
  | .tool _ _ _ => true
  | _ => false

/-- The planner's top-level chat message: optional free text plus zero or
more proposed tool calls. -/
structure PlannerResp where
  content : Option String
  toolCalls : List ToolCall

/-- The dict returned by `process_gpt_command` to the operator. -/
structure CmdResult where
  status : String
  message : Option String

/-- The `PageData` dataclass: one page record {url, title, content,
analysis}.  `title` is the raw value returned by the browser evaluation. -/
structure PageData where
  url : String
  title : JVal
  content : String
  analysis : String

/-- In-memory crawl state: the `visited` set (as the list of URLs in
insertion order) and the `pages` table of the SQLite database (as the list of
rows in insertion order). -/
structure CrawlSt where
  visited : List String
  db : List PageData

/-- The environment of external collaborators: the remote browser protocol,
the planner chat endpoint used by `process_gpt_command`, the separate planner
endpoint used by `map_hn_content`, the SQLite write (which may raise), and
the document state consulted by the article-link extraction script. -/
structure Env where
  browser : BrowserOp → Except Err JVal
  planner : List Msg → Except Err PlannerResp
  mapper : JVal → Except Err String
  store : PageData → Except Err Unit
  articleLinks : Except Err (List String)

namespace ChromeTools

/-- Model of `ChromeTools.navigate_to_url`: issue the navigation, wait for the load
event; on success return `{"status": "success", "url": url}`; re-raise on
failure. -/
def navigate_to_url (env : Env) (url : JVal) : Except Err JVal × List Ev :=
  ((env.browser (.navigate url)).map
    (fun _ => .obj [("status", .str "success"), ("url", url)]),
   [.browser (.navigate url)])

/-- Model of `ChromeTools.get_page_content`: fetch the document and its outer HTML;
on success return `{"content": content}`; re-raise on failure. -/
def get_page_content (env : Env) : Except Err JVal × List Ev :=
  ((env.browser .readContent).map (fun c => .obj [("content", c)]),
   [.browser .readContent])

/-- Model of `ChromeTools.get_page_title`: evaluate `document.title`; on success
return `{"title": title}`; re-raise on failure. -/
def get_page_title (env : Env) : Except Err JVal × List Ev :=
  ((env.browser .readTitle).map (fun t => .obj [("title", t)]),
   [.browser .readTitle])

/-- Model of `ChromeTools.click_element`: evaluate the click script; on success return
`{"status": "success", "clicked": selector}`; re-raise on failure. -/
def click_element (env : Env) (selector : JVal) : Except Err JVal × List Ev :=
  ((env.browser (.click selector)).map
    (fun _ => .obj [("status", .str "success"), ("clicked", selector)]),
   [.browser (.click selector)])

/-- Model of `ChromeTools.scroll_page`: evaluate the scroll script; on success return
`{"status": "success", "scrolled": amount}`; re-raise on failure. -/
def scroll_page (env : Env) (amount : JVal) : Except Err JVal × List Ev :=
  ((env.browser (.scroll amount)).map
    (fun _ => .obj [("status", .str "success"), ("scrolled", amount)]),
   [.browser (.scroll amount)])

/-- Model of `ChromeTools.go_back`. -/
def go_back (env : Env) : Except Err JVal × List Ev :=
  ((env.browser .goBack).map
    (fun _ => .obj [("status", .str "success"), ("action", .str "back")]),
   [.browser .goBack])

/-- Model of `ChromeTools.go_forward`. -/
def go_forward (env : Env) : Except Err JVal × List Ev :=
  ((env.browser .goForward).map
    (fun _ => .obj [("status", .str "success"), ("action", .str "forward")]),
   [.browser .goForward])

/-- Model of `ChromeTools.analyze_html_with_js`: evaluate the link-collection script.
Unlike every other facade operation this one catches its own failure and
returns an error object instead of raising. -/
def analyze_html_with_js (env : Env) : JVal × List Ev :=
  (match env.browser .extractLinks with
   | .ok links => .obj [("status", .str "success"), ("links", links)]
   | .error e => .obj [("status", .str "error"), ("message", .str e.msg)],
   [.browser .extractLinks])

end ChromeTools

namespace Crawler

/-- Model of `Crawler.map_hn_content` (the Content Mapper): send the page content to
the planner in a single, independent request and return the raw textual
response unparsed; if that request raises, catch it and return an error
object instead. -/
def map_hn_content (env : Env) (pageContent : JVal) : JVal × List Ev :=
  (match env.mapper pageContent with
   | .ok content => .str content
   | .error e => .obj [("status", .str "error"), ("message", .str e.msg)],
   [.mapper pageContent])

/-- Model of `Crawler.get_page_content`: delegates to the facade and returns the
`{"content": ...}` dict. -/
def get_page_content (env : Env) : Except Err JVal × List Ev :=
  ChromeTools.get_page_content env

/-- Model of `Crawler.get_page_title`: delegates to the facade and projects the
`"title"` field. -/
def get_page_title (env : Env) : Except Err JVal × List Ev :=
  let r := ChromeTools.get_page_title env
  (r.1.map (fun d => getField d "title"), r.2)

/-- The names of the fixed operation catalog sent to the planner as tool
descriptors in `process_gpt_command`. -/
def catalogNames : List String :=
  ["navigate_to_url", "click_element", "scroll_page", "get_page_content",
   "get_page_title", "go_back", "go_forward"]

/-- The dispatch chain of the tool-call loop body (`if name == ... elif ...`)
of `process_gpt_command`.  Returns the `status` payload: `some` payload on a
completed dispatch, `none` when the name matches no catalog entry (`status`
stays `None` in the source yet is still serialized into an outcome turn), or
a raised error.  The `navigate_to_url` arm additionally reads the new page
content and runs it through the Content Mapper, storing the result under the
`mapped_content` key of the same status payload. -/
def run_tool (env : Env) (name : String) (args : List (String × JVal)) :
    Except Err (Option JVal) × List Ev :=
  if name = "navigate_to_url" then
    match getKey args "url" with
    | .error e => (.error e, [])
    | .ok url =>
      let nav := ChromeTools.navigate_to_url env url
      match nav.1 with
      | .error e => (.error e, nav.2)
      | .ok status =>
        let pc := get_page_content env
        match pc.1 with
        | .error e => (.error e, nav.2 ++ pc.2)
        | .ok contentDict =>
          let mapped := map_hn_content env (getField contentDict "content")
          (.ok (some (setField status "mapped_content" mapped.1)),
           nav.2 ++ pc.2 ++ mapped.2)
  else if name = "click_element" then
    match getKey args "selector" with
    | .error e => (.error e, [])
    | .ok sel =>
      let r := ChromeTools.click_element env sel
      (r.1.map some, r.2)
  else if name = "scroll_page" then
    match getKey args "amount" with
    | .error e => (.error e, [])
    | .ok amt =>
      let r := ChromeTools.scroll_page env amt
      (r.1.map some, r.2)
  else if name = "get_page_content" then
    let r := ChromeTools.get_page_content env
    (r.1.map some, r.2)
  else if name = "get_page_title" then
    let r := ChromeTools.get_page_title env
    (r.1.map some, r.2)
  else if name = "go_back" then
    let r := ChromeTools.go_back env
    (r.1.map some, r.2)
  else if name = "go_forward" then
    let r := ChromeTools.go_forward env
    (r.1.map some, r.2)
  else
    (.ok none, [])

/-- Processing of one proposed call inside the loop: decode the argument
string, dispatch, and build the outcome turn
`{"role": "tool", "name": name, "content": json.dumps(status),
"tool_call_id": t_id}`.  Any raised error propagates. -/
def exec_one (env : Env) (tc : ToolCall) : Except Err Msg × List Ev :=
  match decodeArgs tc.arguments with
  | .error e => (.error e, [])
  | .ok args =>
    let r := run_tool env tc.name args
    match r.1 with
    | .error e => (.error e, r.2)
    | .ok status => (.ok (Msg.tool tc.name (dumpsOpt status) tc.id), r.2)

/-- The `for tool_call in tool_calls` loop: process the proposed calls in
proposal order, appending one outcome turn per processed call; a raised
error escapes the loop immediately (it is caught only by the outer handler
of `process_gpt_command`), leaving the turns appended so far in place. -/
def exec_calls (env : Env) (hist : List Msg) :
    List ToolCall → List Msg × Option Err × List Ev
  | [] => (hist, none, [])
  | tc :: rest =>
    match exec_one env tc with
    | (.error e, t) => (hist, some e, t)
    | (.ok m, t) =>
      let r := exec_calls env (hist ++ [m]) rest
      (r.1, r.2.1, t ++ r.2.2)

/-- The outcome turn of a call whose processing succeeds (used to state
theorems about the all-successful path; the fallback branch is unreachable
under that hypothesis). -/
def okOutcome (env : Env) (tc : ToolCall) : Msg :=
  match (exec_one env tc).1 with
  | .ok m => m
  | .error _ => Msg.user ""

/-- Model of `Crawler.process_gpt_command`: append the operator turn, request a
planner response over the whole transcript, append the planner turn, run the
proposed calls in order, and return a status dict to the operator.  The
single outer `try/except` catches any error raised anywhere in this sequence
and turns it into an error result; `message_history` keeps every turn
appended before the error (no rollback).  The returned value is the pair
(new `message_history`, result dict), plus the event trace. -/
def process_gpt_command (env : Env) (hist : List Msg) (userQuery : String) :
    (List Msg × CmdResult) × List Ev :=
  let hist1 := hist ++ [Msg.user userQuery]
  match env.planner hist1 with
  | .error e => ((hist1, ⟨"error", some e.msg⟩), [])
  | .ok resp =>
    let hist2 := hist1 ++ [Msg.assistant resp.content resp.toolCalls]
    let r := exec_calls env hist2 resp.toolCalls
    match r.2.1 with
    | none => ((r.1, ⟨"success", resp.content⟩), r.2.2)
    | some e => ((r.1, ⟨"error", some e.msg⟩), r.2.2)

/-- Model of `Crawler.get_article_links`: evaluate the script that takes the first 5
anchors of the article-listing selector in document order and returns their
targets; on a raised failure, catch and return the empty list.  The
document's article anchors in document order are `env.articleLinks`. -/
def get_article_links (env : Env) : List String :=
  match env.articleLinks with
  | .ok links => links.take 5
  | .error _ => []

/-- Model of `Crawler.store_page` database effect: `INSERT OR REPLACE INTO pages` with
`url` as primary key — the row with the same url (if any) is deleted and the
new row inserted. -/
def store_page (db : List PageData) (p : PageData) : List PageData :=
  db.filter (fun r => r.url != p.url) ++ [p]

/-- Model of `Crawler.crawl_page`: skip a URL already in `visited`; otherwise add it
to `visited` first, then navigate, read content and title, run the link
analysis (which never raises), build the `PageData` and store it.  Any error
raised by a step is caught and logged; the function always returns normally.
The stored `content` is the serialization of the `{"content": ...}` dict
(the source applies `str(...)` to the dict returned by
`Crawler.get_page_content`) and `analysis` is `json.dumps` of the
link-analysis result. -/
def crawl_page (env : Env) (st : CrawlSt) (url : String) : CrawlSt × List Ev :=
  if url ∈ st.visited then
    (st, [])
  else
    let st1 : CrawlSt := { st with visited := st.visited ++ [url] }
    let nav := ChromeTools.navigate_to_url env (JVal.str url)
    match nav.1 with
    | .error _ => (st1, nav.2)
    | .ok _ =>
      let pc := get_page_content env
      match pc.1 with
      | .error _ => (st1, nav.2 ++ pc.2)
      | .ok contentDict =>
        let pt := get_page_title env
        match pt.1 with
        | .error _ => (st1, nav.2 ++ pc.2 ++ pt.2)
        | .ok titleVal =>
          let ana := ChromeTools.analyze_html_with_js env
          let pd : PageData :=
            { url := url, title := titleVal,
              content := dumps contentDict, analysis := dumps ana.1 }
          match env.store pd with
          | .error _ => (st1, nav.2 ++ pc.2 ++ pt.2 ++ ana.2)
          | .ok _ =>
            ({ st1 with db := store_page st1.db pd },
             nav.2 ++ pc.2 ++ pt.2 ++ ana.2)

/-- The crawl loop of `main` (default mode): `for link in article_links:
crawler.crawl_page(link)`. -/
def crawl_run (env : Env) (st : CrawlSt) : List String → CrawlSt
  | [] => st
  | l :: rest => crawl_run env (crawl_page env st l).1 rest

/-- The default-mode body of `main`: navigate to the seed URL (an uncaught
failure here aborts the process before any crawling), extract the candidate
links once, and crawl them; the candidate list is never extended. -/
def main_crawl (env : Env) (st : CrawlSt) : CrawlSt :=
  match (ChromeTools.navigate_to_url env (JVal.str "https://news.ycombinator.com/")).1 with
  | .error _ => st
  | .ok _ => crawl_run env st (get_article_links env)

end Crawler

/-- Item count of a comma-separated textual list (used to measure the size
of a raw Content Mapper response). -/
def itemCount (s : String) : Nat :=
  (s.toList.filter (fun c => c == ',')).length + 1

/-! Concrete environments and proposed calls used to instantiate the
theorems below. -/

/-- A browser session on which every operation succeeds. -/
def okBrowser : BrowserOp → Except Err JVal
  | .readContent => .ok (.str "<html>")
  | .readTitle => .ok (.str "HN")
  | _ => .ok .null

/-- A browser session on which clicking raises (no matching element) and
everything else succeeds. -/
def clickFailBrowser : BrowserOp → Except Err JVal
  | .click _ => .error (.protocolError "no element")
  | .readTitle => .ok (.str "HN")
  | .readContent => .ok (.str "<html>")
  | _ => .ok .null

/-- A browser session on which navigation times out. -/
def navFailBrowser : BrowserOp → Except Err JVal
  | .navigate _ => .error (.navigationError "timeout")
  | _ => .ok .null

/-- Proposed call: read the page title. -/
def tcTitle : ToolCall := ⟨"call_0", "get_page_title", .empty⟩

/-- Proposed call: click a selector matching nothing. -/
def tcClickMissing : ToolCall :=
  ⟨"call_1", "click_element", .parsed [("selector", JVal.str ".missing")]⟩

/-- Proposed call: click another selector. -/
def tcClickOther : ToolCall :=
  ⟨"call_2", "click_element", .parsed [("selector", JVal.str "#a")]⟩

/-- Proposed call: navigate to a URL. -/
def tcNav : ToolCall :=
  ⟨"call_3", "navigate_to_url", .parsed [("url", JVal.str "https://example.com")]⟩

/-- Proposed call: scroll by 300 pixels. -/
def tcScroll : ToolCall :=
  ⟨"call_4", "scroll_page", .parsed [("amount", JVal.num 300)]⟩

/-- Proposed call whose operation name is not in the fixed catalog. -/
def tcFrob : ToolCall := ⟨"call_9", "frobnicate", .empty⟩

/-- Another proposed call whose operation name is not in the fixed catalog. -/
def tcTeleport : ToolCall := ⟨"call_7", "teleport", .empty⟩

/-- Proposed call whose argument string is not valid JSON. -/
def tcBadArgs : ToolCall := ⟨"call_8", "click_element", .malformed "not json"⟩

/-- Environment where the planner proposes two clicks and clicking raises. -/
def envClickFails : Env :=
  ⟨clickFailBrowser, fun _ => .ok ⟨some "on it", [tcClickMissing, tcClickOther]⟩,
   fun _ => .ok "mapped", fun _ => .ok (), .ok []⟩

/-- Environment where the planner proposes a title read followed by a
failing click. -/
def envC1w : Env :=
  ⟨clickFailBrowser, fun _ => .ok ⟨some "t", [tcTitle, tcClickMissing]⟩,
   fun _ => .ok "mapped", fun _ => .ok (), .ok []⟩

/-- Environment where the planner proposes a single call with an
out-of-catalog name. -/
def envFrob : Env :=
  ⟨okBrowser, fun _ => .ok ⟨none, [tcFrob]⟩,
   fun _ => .ok "mapped", fun _ => .ok (), .ok []⟩

/-- Environment where the planner proposes a single out-of-catalog call
(used for the outcome-count analysis). -/
def envTeleport : Env :=
  ⟨okBrowser, fun _ => .ok ⟨some "tp", [tcTeleport]⟩,
   fun _ => .ok "mapped", fun _ => .ok (), .ok []⟩

/-- Environment where the planner proposes a single call with a malformed
argument string. -/
def envBadArgs : Env :=
  ⟨okBrowser, fun _ => .ok ⟨none, [tcBadArgs]⟩,
   fun _ => .ok "mapped", fun _ => .ok (), .ok []⟩

/-- Environment where the planner proposes three calls that all process
without raising (one of them out-of-catalog). -/
def envThreeCalls : Env :=
  ⟨okBrowser, fun _ => .ok ⟨some "ok", [tcTitle, tcFrob, tcScroll]⟩,
   fun _ => .ok "mapped", fun _ => .ok (), .ok []⟩

/-- Environment where the planner proposes a single navigation. -/
def envNav : Env :=
  ⟨okBrowser, fun _ => .ok ⟨none, [tcNav]⟩,
   fun _ => .ok "mapped", fun _ => .ok (), .ok []⟩

/-- Environment whose browser fails navigation (crawl-failure scenarios). -/
def envNavFails : Env :=
  ⟨navFailBrowser, fun _ => .ok ⟨none, []⟩,
   fun _ => .ok "m", fun _ => .ok (), .ok ["u1"]⟩

/-- Environment with seven article links on the seed page and an all-good
browser and store. -/
def envCrawl : Env :=
  ⟨okBrowser, fun _ => .ok ⟨none, []⟩,
   fun _ => .ok "m", fun _ => .ok (),
   .ok ["https://a", "https://b", "https://c", "https://d", "https://e",
        "https://f", "https://g"]⟩

/-- Environment where the planner request itself raises. -/
def envPlannerFails : Env :=
  ⟨okBrowser, fun _ => .error (.plannerError "api down"),
   fun _ => .ok "m", fun _ => .ok (), .ok []⟩

/-- A raw Content Mapper response carrying eleven items. -/
def elevenItems : String :=
  "[\"i1\",\"i2\",\"i3\",\"i4\",\"i5\",\"i6\",\"i7\",\"i8\",\"i9\",\"i10\",\"i11\"]"

/-- Environment whose Content Mapper endpoint returns eleven items. -/
def envEleven : Env :=
  ⟨okBrowser, fun _ => .ok ⟨none, []⟩,
   fun _ => .ok elevenItems, fun _ => .ok (), .ok []⟩

/-- Environment whose Content Mapper endpoint returns a short response. -/
def envMapperOk : Env :=
  ⟨okBrowser, fun _ => .ok ⟨none, []⟩,
   fun _ => .ok "stories", fun _ => .ok (), .ok []⟩

/-! Helper lemmas about the crawl controller. -/

/-- A URL already in the visited set is skipped: no state change, no browser
events. -/
lemma crawl_page_mem_visited (env : Env) (st : CrawlSt) (url : String)
    (h : url ∈ st.visited) : Crawler.crawl_page env st url = (st, []) := by
  simp [Crawler.crawl_page, h]

/-- A fresh URL is added to the visited set unconditionally, whatever the
browser and store oracles do afterwards. -/
lemma crawl_page_visited_eq (env : Env) (st : CrawlSt) (url : String)
    (h : url ∉ st.visited) :
    (Crawler.crawl_page env st url).1.visited = st.visited ++ [url] := by
  simp only [Crawler.crawl_page, if_neg h]
  repeat' split
  all_goals rfl

/-- The function `crawl_page` never removes a visited URL. -/
lemma crawl_page_visited_mono (env : Env) (st : CrawlSt) (url : String) :
    ∀ u ∈ st.visited, u ∈ (Crawler.crawl_page env st url).1.visited := by
  intro u hu
  by_cases h : url ∈ st.visited
  · rw [crawl_page_mem_visited env st url h]; exact hu
  · rw [crawl_page_visited_eq env st url h]; exact List.mem_append_left _ hu

/-- The whole crawl run never removes a visited URL. -/
lemma crawl_run_visited_mono (env : Env) :
    ∀ (links : List String) (st : CrawlSt),
      ∀ u ∈ st.visited, u ∈ (Crawler.crawl_run env st links).visited := by
  intro links
  induction links with
  | nil => intro st u hu; simpa [Crawler.crawl_run] using hu
  | cons l ls ih =>
    intro st u hu
    exact ih _ u (crawl_page_visited_mono env st l u hu)

/-! Claim theorems. -/

/-- C4: within a run the VisitedSet only grows: a second crawl of a visited
URL is a complete no-op (no state change, no browser action); a fresh URL is
added to the visited set before any outcome of the page processing can
matter (the addition happens for every oracle behaviour); no URL is ever
removed, neither by `crawl_page` nor across a whole `crawl_run`. -/
theorem C4_visited_monotone :
    ∀ (env : Env) (st : CrawlSt) (url : String),
      (url ∈ st.visited → Crawler.crawl_page env st url = (st, [])) ∧
      (url ∉ st.visited →
        (Crawler.crawl_page env st url).1.visited = st.visited ++ [url]) ∧
      (∀ u ∈ st.visited, u ∈ (Crawler.crawl_page env st url).1.visited) ∧
      (∀ links, ∀ u ∈ st.visited,
        u ∈ (Crawler.crawl_run env st links).visited) := by
  intro env st url
  exact ⟨crawl_page_mem_visited env st url,
         crawl_page_visited_eq env st url,
         crawl_page_visited_mono env st url,
         fun links => crawl_run_visited_mono env links st⟩

/-- Witness for C4 at concrete inputs: re-crawling a visited URL changes
nothing; crawling a fresh URL appends it to the visited set. -/
theorem C4_witness :
    Crawler.crawl_page envCrawl ⟨["https://a"], []⟩ "https://a" =
      ((⟨["https://a"], []⟩ : CrawlSt), []) ∧
    (Crawler.crawl_page envCrawl ⟨["https://a"], []⟩ "https://b").1.visited =
      ["https://a", "https://b"] :=
  ⟨(C4_visited_monotone envCrawl ⟨["https://a"], []⟩ "https://a").1 (by decide),
   (C4_visited_monotone envCrawl ⟨["https://a"], []⟩ "https://b").2.1 (by decide)⟩

/-- C5: an error raised at any step of a URL's per-page sequence (navigate,
content read, title read, store; the link-analysis step never raises) is
absorbed inside `crawl_page`: the function returns normally with the URL
marked visited and the database unchanged (no record written), and the run
continues with the remaining links. -/
theorem C5_page_failure_isolated :
    ∀ (env : Env) (st : CrawlSt) (url : String) (e : Err),
      url ∉ st.visited →
      ((ChromeTools.navigate_to_url env (JVal.str url)).1 = .error e ∨
       (Crawler.get_page_content env).1 = .error e ∨
       (Crawler.get_page_title env).1 = .error e ∨
       (∀ pd, env.store pd = .error e)) →
      (Crawler.crawl_page env st url).1 =
        (⟨st.visited ++ [url], st.db⟩ : CrawlSt) ∧
      (∀ rest, Crawler.crawl_run env st (url :: rest) =
        Crawler.crawl_run env (Crawler.crawl_page env st url).1 rest) := by
  intro env st url e hv hfail
  constructor
  · rcases hfail with h | h | h | h
    · simp [Crawler.crawl_page, hv, h]
    · cases hnav : (ChromeTools.navigate_to_url env (JVal.str url)).1 with
      | error e2 => simp [Crawler.crawl_page, hv, hnav]
      | ok v => simp [Crawler.crawl_page, hv, hnav, h]
    · cases hnav : (ChromeTools.navigate_to_url env (JVal.str url)).1 with
      | error e2 => simp [Crawler.crawl_page, hv, hnav]
      | ok v =>
        cases hpc : (Crawler.get_page_content env).1 with
        | error e2 => simp [Crawler.crawl_page, hv, hnav, hpc]
        | ok c => simp [Crawler.crawl_page, hv, hnav, hpc, h]
    · cases hnav : (ChromeTools.navigate_to_url env (JVal.str url)).1 with
      | error e2 => simp [Crawler.crawl_page, hv, hnav]
      | ok v =>
        cases hpc : (Crawler.get_page_content env).1 with
        | error e2 => simp [Crawler.crawl_page, hv, hnav, hpc]
        | ok c =>
          cases hpt : (Crawler.get_page_title env).1 with
          | error e2 => simp [Crawler.crawl_page, hv, hnav, hpc, hpt]
          | ok t => simp [Crawler.crawl_page, hv, hnav, hpc, hpt, h]
  · intro rest; rfl

/-- Witness for C5: with a browser whose navigation times out, crawling a
fresh URL marks it visited, writes nothing, and the run goes on. -/
theorem C5_witness :
    (Crawler.crawl_page envNavFails ⟨[], []⟩ "https://x").1 =
      (⟨["https://x"], []⟩ : CrawlSt) ∧
    (∀ rest, Crawler.crawl_run envNavFails ⟨[], []⟩ ("https://x" :: rest) =
      Crawler.crawl_run envNavFails
        (Crawler.crawl_page envNavFails ⟨[], []⟩ "https://x").1 rest) :=
  C5_page_failure_isolated envNavFails ⟨[], []⟩ "https://x"
    (Err.navigationError "timeout") (by simp) (Or.inl rfl)

/-- C9: `INSERT OR REPLACE` keyed on `url` is an idempotent upsert: storing
the same record twice equals storing it once; after a store exactly one row
carries that url and it holds the latest values; rows for other urls are
untouched. -/
theorem C9_store_page_upsert :
    ∀ (db : List PageData) (p : PageData),
      Crawler.store_page (Crawler.store_page db p) p = Crawler.store_page db p ∧
      (Crawler.store_page db p).filter (fun r => r.url == p.url) = [p] ∧
      (Crawler.store_page db p).countP (fun r => r.url == p.url) = 1 ∧
      (Crawler.store_page db p).filter (fun r => r.url != p.url) =
        db.filter (fun r => r.url != p.url) := by
  intro db p
  have h2 : (Crawler.store_page db p).filter (fun r => r.url == p.url) = [p] := by
    simp [Crawler.store_page, List.filter_append, List.filter_filter, bne,
      Bool.not_and_self]
  refine ⟨?_, h2, ?_, ?_⟩
  · simp [Crawler.store_page, List.filter_append, List.filter_filter,
      Bool.and_self]
  · rw [List.countP_eq_length_filter, h2]; rfl
  · simp [Crawler.store_page, List.filter_append, List.filter_filter,
      Bool.and_self]

/-- C10: when the planner request itself raises, `process_gpt_command`
returns an error result, but the operator turn appended before the request
stays in `message_history` (no rollback); nothing else is appended and no
browser action runs. -/
theorem C10_planner_failure_keeps_operator_turn :
    ∀ (env : Env) (hist : List Msg) (q : String) (e : Err),
      env.planner (hist ++ [Msg.user q]) = .error e →
      Crawler.process_gpt_command env hist q =
        ((hist ++ [Msg.user q], ⟨"error", some e.msg⟩), []) := by
  intro env hist q e h
  simp [Crawler.process_gpt_command, h]

/-- Witness for C10: a concrete failing planner leaves the operator turn in
the transcript and reports an error result. -/
theorem C10_witness :
    Crawler.process_gpt_command envPlannerFails [] "open example" =
      (([Msg.user "open example"], ⟨"error", some "api down"⟩), []) :=
  C10_planner_failure_keeps_operator_turn envPlannerFails [] "open example"
    (Err.plannerError "api down") rfl

/-- C8 (amended): the Content Mapper makes exactly one planner request and
returns the raw response unparsed — verbatim on success, and as a caught
error object on failure (no retry, no validation).  The 10-item bound is
only requested in the prompt, not enforced (see the counterexample). -/
theorem C8_amended_mapper_passthrough :
    ∀ (env : Env) (c : JVal),
      (∀ r, env.mapper c = .ok r →
        Crawler.map_hn_content env c = (.str r, [Ev.mapper c])) ∧
      (∀ e, env.mapper c = .error e →
        Crawler.map_hn_content env c =
          (.obj [("status", .str "error"), ("message", .str e.msg)],
           [Ev.mapper c])) := by
  intro env c
  constructor
  · intro r h; simp [Crawler.map_hn_content, h]
  · intro e h; simp [Crawler.map_hn_content, h]

/-- Witness for the amended C8 at a concrete mapper response. -/
theorem C8_amended_witness :
    Crawler.map_hn_content envMapperOk (JVal.str "<html>") =
      (JVal.str "stories", [Ev.mapper (JVal.str "<html>")]) :=
  (C8_amended_mapper_passthrough envMapperOk (JVal.str "<html>")).1 "stories" rfl

/-- Counterexample to C8 as stated: a planner response carrying eleven items
is passed through unchanged, so the Content Mapper's output can contain more
than 10 items. -/
theorem C8_counterexample :
    (Crawler.map_hn_content envEleven (JVal.str "<html>")).1 =
      JVal.str elevenItems ∧
    10 < itemCount elevenItems :=
  ⟨rfl, by decide⟩

/-! Helper lemmas about the tool-dispatch loop. -/

/-- A successful outcome turn always carries the originating call's name
and id. -/
lemma exec_one_ok_shape (env : Env) (tc : ToolCall) (m : Msg)
    (h : (Crawler.exec_one env tc).1 = .ok m) :
    ∃ c, m = Msg.tool tc.name c tc.id := by
  unfold Crawler.exec_one at h
  cases hd : decodeArgs tc.arguments with
  | error e => rw [hd] at h; simp at h
  | ok args =>
    rw [hd] at h
    cases hr : (Crawler.run_tool env tc.name args).1 with
    | error e => simp [hr] at h
    | ok status =>
      simp only [hr] at h
      exact ⟨dumpsOpt status, (Except.ok.injEq _ _).mp h |>.symm⟩

/-- On the successful path, `okOutcome` is the produced outcome turn. -/
lemma okOutcome_eq (env : Env) (tc : ToolCall) (m : Msg)
    (h : (Crawler.exec_one env tc).1 = .ok m) :
    Crawler.okOutcome env tc = m := by
  unfold Crawler.okOutcome
  rw [h]

/-- When every call in the list processes without raising, the loop appends
exactly one outcome turn per call, in order, and finishes cleanly. -/
lemma exec_calls_all_ok (env : Env) :
    ∀ (calls : List ToolCall) (hist : List Msg),
      (∀ tc ∈ calls, ((Crawler.exec_one env tc).1).isOk = true) →
      (Crawler.exec_calls env hist calls).1 =
        hist ++ calls.map (Crawler.okOutcome env) ∧
      (Crawler.exec_calls env hist calls).2.1 = none := by
  intro calls
  induction calls with
  | nil => intro hist _; simp [Crawler.exec_calls]
  | cons tc rest ih =>
    intro hist h
    have htc := h tc (List.mem_cons_self tc rest)
    cases he : Crawler.exec_one env tc with
    | mk r t =>
      cases r with
      | error e =>
        rw [he] at htc
        simp [Except.isOk, Except.toBool] at htc
      | ok m =>
        have hout : Crawler.okOutcome env tc = m :=
          okOutcome_eq env tc m (by rw [he])
        have hrest := ih (hist ++ [m])
          (fun c hc => h c (List.mem_cons_of_mem tc hc))
        have hstep : Crawler.exec_calls env hist (tc :: rest) =
            ((Crawler.exec_calls env (hist ++ [m]) rest).1,
             (Crawler.exec_calls env (hist ++ [m]) rest).2.1,
             t ++ (Crawler.exec_calls env (hist ++ [m]) rest).2.2) := by
          simp only [Crawler.exec_calls, he]
        constructor
        · rw [hstep]
          dsimp only
          rw [hrest.1, ← hout]
          simp
        · rw [hstep]
          exact hrest.2

/-- When the calls up to some position process without raising and the call
at that position raises, the loop stops there: the outcome turns of the
successful prefix are in place, the error escapes, and no further call is
processed. -/
lemma exec_calls_error (env : Env) :
    ∀ (pre : List ToolCall) (tc : ToolCall) (rest : List ToolCall) (e : Err)
      (hist : List Msg),
      (∀ c ∈ pre, ((Crawler.exec_one env c).1).isOk = true) →
      (Crawler.exec_one env tc).1 = .error e →
      (Crawler.exec_calls env hist (pre ++ tc :: rest)).1 =
        hist ++ pre.map (Crawler.okOutcome env) ∧
      (Crawler.exec_calls env hist (pre ++ tc :: rest)).2.1 = some e := by
  intro pre
  induction pre with
  | nil =>
    intro tc rest e hist _ herr
    cases he : Crawler.exec_one env tc with
    | mk r t =>
      rw [he] at herr
      dsimp only at herr
      subst herr
      simp [Crawler.exec_calls, he]
  | cons c pre ih =>
    intro tc rest e hist hpre herr
    have hc := hpre c (List.mem_cons_self c pre)
    cases he : Crawler.exec_one env c with
    | mk r t =>
      cases r with
      | error e2 =>
        rw [he] at hc
        simp [Except.isOk, Except.toBool] at hc
      | ok m =>
        have hout : Crawler.okOutcome env c = m :=
          okOutcome_eq env c m (by rw [he])
        have hrest := ih tc rest e (hist ++ [m])
          (fun d hd => hpre d (List.mem_cons_of_mem c hd)) herr
        have hstep : Crawler.exec_calls env hist ((c :: pre) ++ tc :: rest) =
            ((Crawler.exec_calls env (hist ++ [m]) (pre ++ tc :: rest)).1,
             (Crawler.exec_calls env (hist ++ [m]) (pre ++ tc :: rest)).2.1,
             t ++ (Crawler.exec_calls env (hist ++ [m])
                     (pre ++ tc :: rest)).2.2) := by
          show Crawler.exec_calls env hist (c :: (pre ++ tc :: rest)) = _
          simp only [Crawler.exec_calls, he]
        constructor
        · rw [hstep]
          dsimp only
          rw [hrest.1, ← hout]
          simp
        · rw [hstep]
          exact hrest.2

/-- C1 (amended): an error raised while executing a proposed call is NOT
caught per call: it escapes the dispatch loop to the instruction-level
handler, which returns an error result to the operator.  Outcome turns exist
only for the calls processed before the failing one; the failing call and
all remaining calls get no outcome turn, so the planner is never shown the
failure. -/
theorem C1_amended_call_error_aborts_instruction :
    ∀ (env : Env) (hist : List Msg) (q : String) (r : PlannerResp)
      (pre : List ToolCall) (tc : ToolCall) (rest : List ToolCall) (e : Err),
      env.planner (hist ++ [Msg.user q]) = .ok r →
      r.toolCalls = pre ++ tc :: rest →
      (∀ c ∈ pre, ((Crawler.exec_one env c).1).isOk = true) →
      (Crawler.exec_one env tc).1 = .error e →
      (Crawler.process_gpt_command env hist q).1 =
        (hist ++ [Msg.user q, Msg.assistant r.content r.toolCalls] ++
           pre.map (Crawler.okOutcome env),
         ⟨"error", some e.msg⟩) := by
  intro env hist q r pre tc rest e hpl hcalls hpre herr
  have hE := exec_calls_error env pre tc rest e
    ((hist ++ [Msg.user q]) ++ [Msg.assistant r.content r.toolCalls]) hpre herr
  simp only [Crawler.process_gpt_command, hpl]
  rw [hcalls] at hE ⊢
  rw [hE.2, hE.1]
  simp

/-- Witness for the amended C1: one successful title read followed by a
failing click — the title outcome turn stays, the click produces none, and
the operator gets the error. -/
theorem C1_amended_witness :
    (Crawler.process_gpt_command envC1w [] "title then click").1 =
      ([Msg.user "title then click",
        Msg.assistant (some "t") [tcTitle, tcClickMissing]] ++
         [tcTitle].map (Crawler.okOutcome envC1w),
       ⟨"error", some "no element"⟩) :=
  C1_amended_call_error_aborts_instruction envC1w [] "title then click"
    ⟨some "t", [tcTitle, tcClickMissing]⟩ [tcTitle] tcClickMissing []
    (Err.protocolError "no element") rfl rfl
    (by intro c hc; rw [List.mem_singleton] at hc; subst hc; rfl) rfl

/-- Counterexample to C1 as stated: a `ProtocolError` raised by the first of
two proposed clicks yields NO outcome turn at all (so the planner never sees
the failure), the result reported to the operator is an error, and the
second proposed call of the same instruction is never executed (the event
trace contains only the first click). -/
theorem C1_counterexample :
    (Crawler.process_gpt_command envClickFails []
        "click the missing element").1.1.countP Msg.isToolTurn = 0 ∧
    (Crawler.process_gpt_command envClickFails []
        "click the missing element").1.2.status = "error" ∧
    (Crawler.process_gpt_command envClickFails []
        "click the missing element").2 =
      [Ev.browser (BrowserOp.click (JVal.str ".missing"))] :=
  ⟨rfl, rfl, rfl⟩

/-- The dispatch chain ignores a name matching no catalog entry: nothing is
executed and the status stays `None`. -/
lemma run_tool_unknown (env : Env) (name : String)
    (args : List (String × JVal)) (h : name ∉ Crawler.catalogNames) :
    Crawler.run_tool env name args = (.ok none, []) := by
  simp only [Crawler.catalogNames, List.mem_cons, List.not_mem_nil, or_false,
    not_or] at h
  obtain ⟨h1, h2, h3, h4, h5, h6, h7⟩ := h
  simp [Crawler.run_tool, h1, h2, h3, h4, h5, h6, h7]

/-- C2 (amended): a proposed call whose argument string fails to decode does
abort with an error reported to the operator and no outcome turn — but a
call whose operation name is not in the catalog is NOT rejected: nothing is
executed, yet an outcome turn with payload `null` is still appended and the
instruction reports success. -/
theorem C2_amended_unknown_op_gets_null_outcome :
    ∀ (env : Env) (hist : List Msg) (q : String) (r : PlannerResp)
      (tc : ToolCall),
      env.planner (hist ++ [Msg.user q]) = .ok r →
      r.toolCalls = [tc] →
      ((∀ args, tc.name ∉ Crawler.catalogNames →
          decodeArgs tc.arguments = .ok args →
          Crawler.process_gpt_command env hist q =
            ((hist ++ [Msg.user q, Msg.assistant r.content r.toolCalls,
                       Msg.tool tc.name "null" tc.id],
              ⟨"success", r.content⟩), [])) ∧
       (∀ e, decodeArgs tc.arguments = .error e →
          Crawler.process_gpt_command env hist q =
            ((hist ++ [Msg.user q, Msg.assistant r.content r.toolCalls],
              ⟨"error", some e.msg⟩), []))) := by
  intro env hist q r tc hpl hcalls
  constructor
  · intro args hname hdec
    have h1 : Crawler.exec_one env tc =
        (.ok (Msg.tool tc.name "null" tc.id), []) := by
      simp [Crawler.exec_one, hdec, run_tool_unknown env tc.name args hname,
        dumpsOpt]
    simp only [Crawler.process_gpt_command, hpl]
    rw [hcalls]
    simp [Crawler.exec_calls, h1]
  · intro e hdec
    have h1 : Crawler.exec_one env tc = (.error e, []) := by
      simp [Crawler.exec_one, hdec]
    simp only [Crawler.process_gpt_command, hpl]
    rw [hcalls]
    simp [Crawler.exec_calls, h1]

/-- Witness for the amended C2 at concrete inputs: the out-of-catalog call
gets a null outcome turn and success; the malformed-argument call gets an
error and no outcome turn. -/
theorem C2_amended_witness :
    Crawler.process_gpt_command envFrob [] "poke the gizmo" =
      (([Msg.user "poke the gizmo", Msg.assistant none [tcFrob],
         Msg.tool "frobnicate" "null" "call_9"],
        ⟨"success", none⟩), []) ∧
    Crawler.process_gpt_command envBadArgs [] "click x" =
      (([Msg.user "click x", Msg.assistant none [tcBadArgs]],
        ⟨"error", some "not json"⟩), []) :=
  ⟨(C2_amended_unknown_op_gets_null_outcome envFrob [] "poke the gizmo"
      ⟨none, [tcFrob]⟩ tcFrob rfl rfl).1 [] (by decide) rfl,
   (C2_amended_unknown_op_gets_null_outcome envBadArgs [] "click x"
      ⟨none, [tcBadArgs]⟩ tcBadArgs rfl rfl).2 (Err.decodeError "not json") rfl⟩

/-- Counterexample to C2 as stated: a proposed call naming the out-of-catalog
operation `frobnicate` (with decodable arguments) produces no operator error
report — the instruction returns success — and ConversationState DOES gain
an outcome turn for it (with payload `null`). -/
theorem C2_counterexample :
    (Crawler.process_gpt_command envFrob [] "do something weird").1.1 =
      [Msg.user "do something weird", Msg.assistant none [tcFrob],
       Msg.tool "frobnicate" "null" "call_9"] ∧
    (Crawler.process_gpt_command envFrob [] "do something weird").1.2.status =
      "success" :=
  ⟨rfl, rfl⟩

/-- C3 (amended): when every proposed call of the instruction processes
without raising, the loop appends exactly one outcome turn per proposed
call — including calls with unrecognized names, which execute nothing yet
still get a `null` outcome turn — in proposal order, each carrying the
originating call's identifier.  (A call that raises ends the cycle with no
outcome turn for itself or any later call; see the C1 analysis.) -/
theorem C3_amended_outcomes_match_processed_calls :
    ∀ (env : Env) (hist : List Msg) (q : String) (r : PlannerResp),
      env.planner (hist ++ [Msg.user q]) = .ok r →
      (∀ tc ∈ r.toolCalls, ((Crawler.exec_one env tc).1).isOk = true) →
      (Crawler.process_gpt_command env hist q).1.1 =
        hist ++ [Msg.user q, Msg.assistant r.content r.toolCalls] ++
          r.toolCalls.map (Crawler.okOutcome env) ∧
      (∀ tc ∈ r.toolCalls, ∃ c,
        Crawler.okOutcome env tc = Msg.tool tc.name c tc.id) := by
  intro env hist q r hpl hok
  have hE := exec_calls_all_ok env r.toolCalls
    ((hist ++ [Msg.user q]) ++ [Msg.assistant r.content r.toolCalls]) hok
  constructor
  · simp only [Crawler.process_gpt_command, hpl]
    rw [hE.2, hE.1]
    simp
  · intro tc htc
    have h1 := hok tc htc
    cases he : (Crawler.exec_one env tc).1 with
    | error e =>
      rw [he] at h1
      simp [Except.isOk, Except.toBool] at h1
    | ok m =>
      obtain ⟨c, rfl⟩ := exec_one_ok_shape env tc m he
      exact ⟨c, okOutcome_eq env tc _ he⟩

/-- Witness for the amended C3: three proposed calls (title read,
out-of-catalog name, scroll) produce exactly three outcome turns in
proposal order, each tagged with its call id. -/
theorem C3_amended_witness :
    (Crawler.process_gpt_command envThreeCalls [] "batch").1.1 =
      [Msg.user "batch", Msg.assistant (some "ok") [tcTitle, tcFrob, tcScroll]] ++
        [tcTitle, tcFrob, tcScroll].map (Crawler.okOutcome envThreeCalls) ∧
    (∀ tc ∈ [tcTitle, tcFrob, tcScroll], ∃ c,
      Crawler.okOutcome envThreeCalls tc = Msg.tool tc.name c tc.id) :=
  C3_amended_outcomes_match_processed_calls envThreeCalls [] "batch"
    ⟨some "ok", [tcTitle, tcFrob, tcScroll]⟩ rfl
    (by
      intro tc htc
      simp only [List.mem_cons, List.not_mem_nil, or_false] at htc
      rcases htc with rfl | rfl | rfl <;> rfl)

/-- Counterexample to C3 as stated: an instruction whose single proposed
call names an out-of-catalog operation executes nothing (the event trace is
empty) yet appends one outcome turn, so the outcome-turn count (1) differs
from the number of calls actually executed (0), although the call was not
rejected at decode time. -/
theorem C3_counterexample :
    (Crawler.process_gpt_command envTeleport [] "teleport now").1.1.countP
        Msg.isToolTurn = 1 ∧
    (Crawler.process_gpt_command envTeleport [] "teleport now").2 = [] :=
  ⟨rfl, rfl⟩

/-! Equations of the dispatch chain at each literal catalog name (the
`if`-conditions reduce definitionally). -/

/-- Dispatch at the literal name `click_element`. -/
lemma run_tool_click_eq (env : Env) (args : List (String × JVal)) :
    Crawler.run_tool env "click_element" args =
      (match getKey args "selector" with
       | .error e => (.error e, [])
       | .ok sel => ((ChromeTools.click_element env sel).1.map some,
                     (ChromeTools.click_element env sel).2)) := rfl

/-- Dispatch at the literal name `scroll_page`. -/
lemma run_tool_scroll_eq (env : Env) (args : List (String × JVal)) :
    Crawler.run_tool env "scroll_page" args =
      (match getKey args "amount" with
       | .error e => (.error e, [])
       | .ok amt => ((ChromeTools.scroll_page env amt).1.map some,
                     (ChromeTools.scroll_page env amt).2)) := rfl

/-- Dispatch at the literal name `get_page_content`. -/
lemma run_tool_content_eq (env : Env) (args : List (String × JVal)) :
    Crawler.run_tool env "get_page_content" args =
      ((ChromeTools.get_page_content env).1.map some,
       (ChromeTools.get_page_content env).2) := rfl

/-- Dispatch at the literal name `get_page_title`. -/
lemma run_tool_title_eq (env : Env) (args : List (String × JVal)) :
    Crawler.run_tool env "get_page_title" args =
      ((ChromeTools.get_page_title env).1.map some,
       (ChromeTools.get_page_title env).2) := rfl

/-- Dispatch at the literal name `go_back`. -/
lemma run_tool_back_eq (env : Env) (args : List (String × JVal)) :
    Crawler.run_tool env "go_back" args =
      ((ChromeTools.go_back env).1.map some, (ChromeTools.go_back env).2) := rfl

/-- Dispatch at the literal name `go_forward`. -/
lemma run_tool_forward_eq (env : Env) (args : List (String × JVal)) :
    Crawler.run_tool env "go_forward" args =
      ((ChromeTools.go_forward env).1.map some,
       (ChromeTools.go_forward env).2) := rfl

/-- Dispatch at the literal name `navigate_to_url`: navigation is followed
by a content read and a Content Mapper request, and the mapped result is
attached to the navigation's own status payload. -/
lemma run_tool_nav_eq (env : Env) (args : List (String × JVal)) :
    Crawler.run_tool env "navigate_to_url" args =
      (match getKey args "url" with
       | .error e => (.error e, [])
       | .ok url =>
         match (ChromeTools.navigate_to_url env url).1 with
         | .error e => (.error e, (ChromeTools.navigate_to_url env url).2)
         | .ok status =>
           match (Crawler.get_page_content env).1 with
           | .error e =>
             (.error e, (ChromeTools.navigate_to_url env url).2 ++
                (Crawler.get_page_content env).2)
           | .ok contentDict =>
             (.ok (some (setField status "mapped_content"
                    (Crawler.map_hn_content env
                      (getField contentDict "content")).1)),
              (ChromeTools.navigate_to_url env url).2 ++
                (Crawler.get_page_content env).2 ++
                (Crawler.map_hn_content env
                  (getField contentDict "content")).2)) := rfl

/-- C6: exactly the `navigate_to_url` calls have a compound effect — on a
successful navigation and content read, the outcome turn's payload is the
navigation status with the Content Mapper's result attached under
`mapped_content`, and the event trace is navigation, content read, one
mapper request.  Every other catalog operation performs at most one browser
request and never consults the Content Mapper. -/
theorem C6_navigate_compound_effect :
    ∀ (env : Env),
      (∀ (tc : ToolCall) (args : List (String × JVal)) (url status pc : JVal),
        tc.name = "navigate_to_url" →
        decodeArgs tc.arguments = .ok args →
        getKey args "url" = .ok url →
        (ChromeTools.navigate_to_url env url).1 = .ok status →
        (Crawler.get_page_content env).1 = .ok pc →
        Crawler.exec_one env tc =
          (.ok (Msg.tool tc.name
             (dumps (setField status "mapped_content"
                (Crawler.map_hn_content env (getField pc "content")).1))
             tc.id),
           [Ev.browser (BrowserOp.navigate url), Ev.browser BrowserOp.readContent,
            Ev.mapper (getField pc "content")])) ∧
      (∀ (name : String) (args : List (String × JVal)),
        name ∈ Crawler.catalogNames → name ≠ "navigate_to_url" →
        (Crawler.run_tool env name args).2.length ≤ 1 ∧
        (∀ ev ∈ (Crawler.run_tool env name args).2, ∃ op, ev = Ev.browser op)) := by
  intro env
  constructor
  · intro tc args url status pc hn hdec hurl hnav hpc
    obtain ⟨i, n, a⟩ := tc
    dsimp only at hn hdec ⊢
    subst hn
    unfold Crawler.exec_one
    rw [hdec]
    dsimp only
    rw [run_tool_nav_eq, hurl]
    dsimp only
    rw [hnav]
    dsimp only
    rw [hpc]
    dsimp only
    simp [ChromeTools.navigate_to_url, Crawler.get_page_content,
      ChromeTools.get_page_content, Crawler.map_hn_content, dumpsOpt]
  · intro name args hmem hne
    simp only [Crawler.catalogNames, List.mem_cons, List.not_mem_nil,
      or_false] at hmem
    rcases hmem with h | h | h | h | h | h | h
    · exact absurd h hne
    · subst h
      rw [run_tool_click_eq]
      cases hk : getKey args "selector" with
      | error e => simp
      | ok sel =>
        refine ⟨by simp [ChromeTools.click_element], ?_⟩
        intro ev hev
        simp [ChromeTools.click_element] at hev
        exact ⟨_, hev⟩
    · subst h
      rw [run_tool_scroll_eq]
      cases hk : getKey args "amount" with
      | error e => simp
      | ok amt =>
        refine ⟨by simp [ChromeTools.scroll_page], ?_⟩
        intro ev hev
        simp [ChromeTools.scroll_page] at hev
        exact ⟨_, hev⟩
    · subst h
      rw [run_tool_content_eq]
      refine ⟨by simp [ChromeTools.get_page_content], ?_⟩
      intro ev hev
      simp [ChromeTools.get_page_content] at hev
      exact ⟨_, hev⟩
    · subst h
      rw [run_tool_title_eq]
      refine ⟨by simp [ChromeTools.get_page_title], ?_⟩
      intro ev hev
      simp [ChromeTools.get_page_title] at hev
      exact ⟨_, hev⟩
    · subst h
      rw [run_tool_back_eq]
      refine ⟨by simp [ChromeTools.go_back], ?_⟩
      intro ev hev
      simp [ChromeTools.go_back] at hev
      exact ⟨_, hev⟩
    · subst h
      rw [run_tool_forward_eq]
      refine ⟨by simp [ChromeTools.go_forward], ?_⟩
      intro ev hev
      simp [ChromeTools.go_forward] at hev
      exact ⟨_, hev⟩

/-- Witness for C6: a concrete successful navigation call yields a success
payload with the mapped content attached and the three-event trace; a
`go_back` call performs a single browser request. -/
theorem C6_witness :
    Crawler.exec_one envNav tcNav =
      (.ok (Msg.tool "navigate_to_url"
         (dumps (setField
            (JVal.obj [("status", JVal.str "success"),
                       ("url", JVal.str "https://example.com")])
            "mapped_content" (JVal.str "mapped"))) "call_3"),
       [Ev.browser (BrowserOp.navigate (JVal.str "https://example.com")),
        Ev.browser BrowserOp.readContent,
        Ev.mapper (JVal.str "<html>")]) ∧
    (Crawler.run_tool envNav "go_back" []).2.length ≤ 1 :=
  ⟨(C6_navigate_compound_effect envNav).1 tcNav
     [("url", JVal.str "https://example.com")] (JVal.str "https://example.com")
     (JVal.obj [("status", JVal.str "success"),
                ("url", JVal.str "https://example.com")])
     (JVal.obj [("content", JVal.str "<html>")])
     rfl rfl rfl rfl rfl,
   ((C6_navigate_compound_effect envNav).2 "go_back" [] (by decide)
     (by decide)).1⟩

/-! Helper lemmas for the crawl frontier bound. -/

/-- Upserting a record whose url is absent from the table appends it. -/
lemma store_page_fresh (db : List PageData) (p : PageData)
    (h : ∀ r ∈ db, (r.url == p.url) = false) :
    Crawler.store_page db p = db ++ [p] := by
  unfold Crawler.store_page
  rw [List.filter_eq_self.mpr]
  intro r hr
  simp [bne, h r hr]

/-- Crawling a fresh URL either leaves the table unchanged (some step
failed) or upserts exactly one record carrying that URL. -/
lemma crawl_page_db_result (env : Env) (st : CrawlSt) (url : String)
    (h : url ∉ st.visited) :
    (Crawler.crawl_page env st url).1.db = st.db ∨
    ∃ pd : PageData, pd.url = url ∧
      (Crawler.crawl_page env st url).1.db = Crawler.store_page st.db pd := by
  simp only [Crawler.crawl_page, if_neg h]
  repeat' split
  all_goals first
    | exact Or.inl rfl
    | exact Or.inr ⟨_, rfl, rfl⟩

/-- Records written by a crawl run over a fixed link list: their urls form a
duplicate-free sublist of the link list, appended to the pre-existing table
(assuming every pre-existing record's url is already visited). -/
lemma crawl_run_records (env : Env) :
    ∀ (links : List String) (st : CrawlSt),
      (∀ r ∈ st.db, r.url ∈ st.visited) →
      ∃ t : List String, t.Sublist links ∧ t.Nodup ∧
        (∀ u ∈ t, u ∉ st.visited) ∧
        (Crawler.crawl_run env st links).db.map PageData.url =
          st.db.map PageData.url ++ t := by
  intro links
  induction links with
  | nil =>
    intro st _
    exact ⟨[], List.nil_sublist _, List.nodup_nil, by simp,
           by simp [Crawler.crawl_run]⟩
  | cons l ls ih =>
    intro st hI
    have hrun : Crawler.crawl_run env st (l :: ls) =
        Crawler.crawl_run env (Crawler.crawl_page env st l).1 ls := rfl
    by_cases hv : l ∈ st.visited
    · rw [hrun, crawl_page_mem_visited env st l hv]
      obtain ⟨t, h1, h2, h3, h4⟩ := ih st hI
      exact ⟨t, h1.cons l, h2, h3, h4⟩
    · have hvis : (Crawler.crawl_page env st l).1.visited =
          st.visited ++ [l] := crawl_page_visited_eq env st l hv
      rcases crawl_page_db_result env st l hv with hdb | ⟨pd, hpd, hdb⟩
      · have hI1 : ∀ r ∈ (Crawler.crawl_page env st l).1.db,
            r.url ∈ (Crawler.crawl_page env st l).1.visited := by
          intro r hr
          rw [hdb] at hr
          rw [hvis]
          exact List.mem_append_left _ (hI r hr)
        obtain ⟨t, h1, h2, h3, h4⟩ := ih _ hI1
        refine ⟨t, h1.cons l, h2, ?_, ?_⟩
        · intro u hu hmem
          exact h3 u hu (by rw [hvis]; exact List.mem_append_left _ hmem)
        · rw [hrun, h4, hdb]
      · have hfresh : Crawler.store_page st.db pd = st.db ++ [pd] := by
          refine store_page_fresh st.db pd ?_
          intro r hr
          have hru := hI r hr
          have hne : r.url ≠ pd.url := by
            rw [hpd]
            intro hcontra
            exact hv (hcontra ▸ hru)
          exact beq_eq_false_iff_ne.mpr hne
        have hdb1 : (Crawler.crawl_page env st l).1.db = st.db ++ [pd] := by
          rw [hdb, hfresh]
        have hI1 : ∀ r ∈ (Crawler.crawl_page env st l).1.db,
            r.url ∈ (Crawler.crawl_page env st l).1.visited := by
          intro r hr
          rw [hdb1] at hr
          rw [hvis]
          rcases List.mem_append.mp hr with hr | hr
          · exact List.mem_append_left _ (hI r hr)
          · rw [List.mem_singleton] at hr
            subst hr
            rw [hpd]
            exact List.mem_append_right _ (by simp)
        obtain ⟨t, h1, h2, h3, h4⟩ := ih _ hI1
        have hlt : l ∉ t := by
          intro hmem
          exact h3 l hmem (by rw [hvis]; exact List.mem_append_right _ (by simp))
        refine ⟨l :: t, h1.cons₂ l, List.nodup_cons.mpr ⟨hlt, h2⟩, ?_, ?_⟩
        · intro u hu
          rcases List.mem_cons.mp hu with rfl | hu
          · exact hv
          · intro hmem
            exact h3 u hu (by rw [hvis]; exact List.mem_append_left _ hmem)
        · rw [hrun, h4, hdb1]
          simp [hpd]

/-- C7: the candidate list is the first five article links in document
order, fixed at seeding time; a whole default-mode run stores records only
for candidate links, at most one per distinct link and in extraction order,
hence at most 5 records. -/
theorem C7_bounded_frontier :
    ∀ (env : Env),
      (Crawler.get_article_links env).length ≤ 5 ∧
      (∀ ls, env.articleLinks = Except.ok ls →
        Crawler.get_article_links env = ls.take 5) ∧
      ((Crawler.main_crawl env ⟨[], []⟩).db.map PageData.url).Sublist
        (Crawler.get_article_links env) ∧
      ((Crawler.main_crawl env ⟨[], []⟩).db.map PageData.url).Nodup ∧
      (Crawler.main_crawl env ⟨[], []⟩).db.length ≤ 5 := by
  intro env
  have hlen : (Crawler.get_article_links env).length ≤ 5 := by
    unfold Crawler.get_article_links
    cases env.articleLinks with
    | ok ls => simp [List.length_take]
    | error e => simp
  have hmain : ∃ t, t.Sublist (Crawler.get_article_links env) ∧ t.Nodup ∧
      (Crawler.main_crawl env ⟨[], []⟩).db.map PageData.url = t := by
    unfold Crawler.main_crawl
    cases hnav : (ChromeTools.navigate_to_url env
        (JVal.str "https://news.ycombinator.com/")).1 with
    | error e => exact ⟨[], List.nil_sublist _, List.nodup_nil, by simp⟩
    | ok v =>
      obtain ⟨t, h1, h2, _, h4⟩ :=
        crawl_run_records env (Crawler.get_article_links env) ⟨[], []⟩ (by simp)
      exact ⟨t, h1, h2, by simpa using h4⟩
  obtain ⟨t, h1, h2, h3⟩ := hmain
  refine ⟨hlen, ?_, ?_, ?_, ?_⟩
  · intro ls hls
    simp [Crawler.get_article_links, hls]
  · rw [h3]; exact h1
  · rw [h3]; exact h2
  · have hml : (Crawler.main_crawl env ⟨[], []⟩).db.length =
        ((Crawler.main_crawl env ⟨[], []⟩).db.map PageData.url).length :=
      (List.length_map _ _).symm
    rw [hml, h3]
    exact le_trans h1.length_le hlen

/-- Witness for C7: with seven article anchors on the seed page the
candidate list is exactly the first five, and the run stores at most five
records. -/
theorem C7_witness :
    Crawler.get_article_links envCrawl =
      ["https://a", "https://b", "https://c", "https://d", "https://e"] ∧
    (Crawler.main_crawl envCrawl ⟨[], []⟩).db.length ≤ 5 :=
  ⟨(C7_bounded_frontier envCrawl).2.1 _ rfl,
   (C7_bounded_frontier envCrawl).2.2.2.2⟩

end Chromio
